import Mathlib

/-!
Verification of the Remote Screen Session & Coordinate Reconciliation Engine
of the ui-inspector frontend (`src/frontend/src/components/XPathPlayground.tsx`,
the ScreenCanvas component, together with the device-switch handler in the
application shell).

JavaScript numbers are modelled as exact rationals (`ℚ`); `Math.round` is
modelled as `⌊q + 1/2⌋` (round half toward positive infinity, as in JS);
JavaScript string truthiness for optional attribute strings is
`some s` with `s ≠ ""`.
-/

namespace Inspector

/-! ## Data model -/

/-- `bounds_computed` attribute of a hierarchy node: x, y, width, height. -/
structure BoundsComputed where
  x : ℚ
  y : ℚ
  w : ℚ
  h : ℚ
deriving DecidableEq

/-- The attribute map of a hierarchy node, restricted to the keys the engine
reads: `visible`, `clickable`, `scrollable`, `focusable`, `long-clickable`,
`text`, `resource-id`, `content-desc`, `bounds_computed`.  A missing key is
`none`. -/
structure Attrs where
  visible : Option String := none
  clickable : Option String := none
  scrollable : Option String := none
  focusable : Option String := none
  longClickable : Option String := none
  text : Option String := none
  resourceId : Option String := none
  contentDesc : Option String := none
  bounds_computed : Option BoundsComputed := none

mutual
/-- A hierarchy node: a tag, an attribute map and an ordered list of children
(encoded as a `Forest` so that all recursions are plainly structural). -/
inductive HierarchyNode where
  | node (tag : String) (attrs : Attrs) (children : Forest)

/-- An ordered list of hierarchy nodes. -/
inductive Forest where
  | nil
  | cons (head : HierarchyNode) (tail : Forest)
end

/-- Device descriptor: logical width and height. -/
structure DeviceInfo where
  width : ℚ
  height : ℚ
deriving DecidableEq

/-- Pixel size of the most recently decoded frame (0×0 before any frame). -/
structure FrameSize where
  width : ℚ
  height : ℚ
deriving DecidableEq

/-- JavaScript string truthiness of an optional attribute value:
present and non-empty. -/
def strTruthy : Option String → Bool
  | some s => decide (s ≠ "")
  | none => false

/-! ## CoordinateReconciler -/

mutual
/-- `estimateHierarchyBounds` walk: fold of
`if (b && b.w > 0 && b.h > 0) maxRight = max maxRight (b.x+b.w); ...`
over the node itself and then its children. -/
def walkBounds (acc : ℚ × ℚ) : HierarchyNode → ℚ × ℚ
  | .node _ attrs cs =>
    let acc' :=
      match attrs.bounds_computed with
      | some b =>
        if 0 < b.w ∧ 0 < b.h then (max acc.1 (b.x + b.w), max acc.2 (b.y + b.h)) else acc
      | none => acc
    walkForest acc' cs

def walkForest (acc : ℚ × ℚ) : Forest → ℚ × ℚ
  | .nil => acc
  | .cons c cs => walkForest (walkBounds acc c) cs
end

/-- `estimateHierarchyBounds`: `(maxRight, maxBottom)` of the tree, starting
from `(0, 0)`. -/
def estimateHierarchyBounds (t : HierarchyNode) : ℚ × ℚ :=
  walkBounds (0, 0) t

/-- The unclamped fit computation of `recalcHierarchyFit` (the lines between
the oversized test and the clamp): `fitX`/`fitY` start at 1; when
`maxRight > width*1.2 || maxBottom > height*1.2` they are recomputed from the
frame when one has been decoded (`frame.width > 0 && frame.height > 0`), else
from the hierarchy extent. -/
def fitRaw (maxRight maxBottom : ℚ) (dInfo : DeviceInfo) (frame : FrameSize) : ℚ × ℚ :=
  let oversizedX := dInfo.width * 1.2 < maxRight
  let oversizedY := dInfo.height * 1.2 < maxBottom
  if oversizedX ∨ oversizedY then
    if 0 < frame.width ∧ 0 < frame.height then
      (dInfo.width / frame.width, dInfo.height / frame.height)
    else
      (dInfo.width / maxRight, dInfo.height / maxBottom)
  else
    (1, 1)

/-- The pre-clamp fit of `recalcHierarchyFit` for a present tree and device. -/
def recalcFitPre (t : HierarchyNode) (dInfo : DeviceInfo) (frame : FrameSize) : ℚ × ℚ :=
  let e := estimateHierarchyBounds t
  fitRaw e.1 e.2 dInfo frame

/-- `Math.max(0.1, Math.min(2, v))`. -/
def clampFit (v : ℚ) : ℚ :=
  max 0.1 (min 2 v)

/-- `recalcHierarchyFit`: early `(1,1)` when tree or device info is missing or
the extent is non-positive, otherwise the clamped raw fit. -/
def recalcHierarchyFit (tree : Option HierarchyNode) (dInfo : Option DeviceInfo)
    (frame : FrameSize) : ℚ × ℚ :=
  match tree, dInfo with
  | some t, some d =>
    let e := estimateHierarchyBounds t
    if e.1 ≤ 0 ∨ e.2 ≤ 0 then (1, 1)
    else
      let raw := fitRaw e.1 e.2 d frame
      (clampFit raw.1, clampFit raw.2)
  | _, _ => (1, 1)

/-- Available width of the render area in `calculateScale`:
`containerEl ? Math.max(containerEl.clientWidth, 160) : window.innerWidth/3 - 24`. -/
def availableWidthOf (containerClientWidth : Option ℚ) (windowInnerWidth : ℚ) : ℚ :=
  match containerClientWidth with
  | some cw => max cw 160
  | none => windowInnerWidth / 3 - 24

/-- Available height of the render area in `calculateScale`:
`window.innerHeight - 96 - (55 + 16 + 38)`. -/
def availableHeightOf (windowInnerHeight : ℚ) : ℚ :=
  windowInnerHeight - 96 - (55 + 16 + 38)

/-- `calculateScale`: returns the new scale together with the canvas size
`(deviceWidth * newScale, deviceHeight * newScale)`. -/
def calculateScale (deviceWidth deviceHeight availableWidth availableHeight : ℚ) :
    ℚ × (ℚ × ℚ) :=
  let scaleX := availableWidth / deviceWidth
  let scaleY := availableHeight / deviceHeight
  let newScale := min (min scaleX scaleY) 1.2
  (newScale, (deviceWidth * newScale, deviceHeight * newScale))

/-- `Math.round` of JavaScript on an exact rational:
`⌊q + 1/2⌋` (round half toward positive infinity), as an (integer-valued)
rational.  `Rat.floor` is the computable floor underlying `ℚ`'s
`FloorRing` instance. -/
def jsRound (q : ℚ) : ℚ :=
  (((q + 1 / 2).floor : ℤ) : ℚ)

/-- `canvasToDevice`: `(0,0)` when no device info is present, otherwise
`(Math.round(canvasX / scale), Math.round(canvasY / scale))`. -/
def canvasToDevice (deviceInfo : Option DeviceInfo) (scale : ℚ) (canvasX canvasY : ℚ) :
    ℚ × ℚ :=
  match deviceInfo with
  | none => (0, 0)
  | some _ => (jsRound (canvasX / scale), jsRound (canvasY / scale))

/-- `deviceToCanvas`: `(deviceX * fitX * scale, deviceY * fitY * scale)`. -/
def deviceToCanvas (hierarchyFit : ℚ × ℚ) (scale : ℚ) (deviceX deviceY : ℚ) : ℚ × ℚ :=
  (deviceX * hierarchyFit.1 * scale, deviceY * hierarchyFit.2 * scale)

/-- The hit-test coordinate computation of `handleClick` (select mode): when a
frame has been decoded and the canvas has a size, map canvas pixels directly to
frame-pixel space with `Math.round(pos * frame.size / canvasSize)`; before the
first frame, fall back to `canvasToDevice`. -/
def handleClickPoint (frame : FrameSize) (canvasW canvasH : ℚ)
    (deviceInfo : Option DeviceInfo) (scale : ℚ) (px py : ℚ) : ℚ × ℚ :=
  if 0 < frame.width ∧ 0 < canvasW then
    (jsRound (px * frame.width / canvasW), jsRound (py * frame.height / canvasH))
  else
    canvasToDevice deviceInfo scale px py

/-! ## InteractiveElementExtractor -/

/-- An overlay descriptor: bounds, label and color. -/
structure Overlay where
  bounds : BoundsComputed
  label : String
  color : String
deriving DecidableEq

/-- The tag and attributes of one node, as seen in preorder. -/
structure NodeView where
  tag : String
  attrs : Attrs

mutual
/-- Pre-order list of the (tag, attributes) of every node of the tree. -/
def preorderNodes : HierarchyNode → List NodeView
  | .node tag attrs cs => ⟨tag, attrs⟩ :: preorderForest cs

/-- Pre-order node list of a forest. -/
def preorderForest : Forest → List NodeView
  | .nil => []
  | .cons c cs => preorderNodes c ++ preorderForest cs
end

/-- The `/` separator character of resource-id paths (code point 47). -/
def slashChar : Char := Char.ofNat 47

/-- The `.` separator character of dotted tags (code point 46). -/
def dotChar : Char := Char.ofNat 46

/-- Split a character list at every occurrence of `sep` (the result always has
at least one, possibly empty, piece — like JavaScript `String.split` with a
one-character separator). -/
def splitChar (sep : Char) : List Char → List (List Char)
  | [] => [[]]
  | c :: cs =>
    let r := splitChar sep cs
    if c = sep then [] :: r else (c :: r.headD []) :: r.tail

/-- `s.take n` by characters (JavaScript `substring(0, n)`). -/
def jsTake (s : String) (n : Nat) : String :=
  ⟨s.data.take n⟩

/-- `s.split(sep).pop() || ''` of JavaScript. -/
def lastSegment (sep : Char) (s : String) : String :=
  ⟨(splitChar sep s.data).getLastD []⟩

/-- Color assignment of `extractElementBounds`: clickable green, else
scrollable orange, else long-clickable cyan, else default blue. -/
def colorOf (attrs : Attrs) : String :=
  if attrs.clickable = some "true" then "#52c41a"
  else if attrs.scrollable = some "true" then "#faad14"
  else if attrs.longClickable = some "true" then "#13c2c2"
  else "#1890ff"

/-- The label candidate chosen by the `if`/`else if` chain of
`extractElementBounds`: `attrs.text` when truthy, else — when
`attrs['resource-id']` is truthy — the last `/` segment of the resource-id,
else `attrs['content-desc']` when truthy, else the empty string. -/
def labelCandidate (attrs : Attrs) : String :=
  if strTruthy attrs.text then attrs.text.getD ""
  else if strTruthy attrs.resourceId then lastSegment slashChar (attrs.resourceId.getD "")
  else if strTruthy attrs.contentDesc then attrs.contentDesc.getD ""
  else ""

/-- Label derivation of `extractElementBounds`, exactly as in the source:
pick the candidate; truncate it to 17 characters plus `...` when longer than
20 (`if (label && label.length > 20)`); fall back to the last `.` segment of
the tag when it is empty (`label || n.tag.split('.').pop() || ''`). -/
def labelOf (tag : String) (attrs : Attrs) : String :=
  let label : String := labelCandidate attrs
  let label := if label ≠ "" ∧ label.length > 20 then jsTake label 17 ++ "..." else label
  if label ≠ "" then label else lastSegment dotChar tag

/-- Interactivity test of the inclusion filter: clickable, scrollable,
focusable, long-clickable, or non-empty text. -/
def interactiveB (attrs : Attrs) : Bool :=
  decide (attrs.clickable = some "true") ||
  decide (attrs.scrollable = some "true") ||
  decide (attrs.focusable = some "true") ||
  decide (attrs.longClickable = some "true") ||
  strTruthy attrs.text

/-- The inclusion test of `extractElementBounds` for one node: not explicitly
invisible, bounds present, interactive-or-text, and
`w > 10 && h > 10 && w < 2000 && h < 3000`. -/
def inclB (v : NodeView) : Bool :=
  if v.attrs.visible = some "false" then false else
  match v.attrs.bounds_computed with
  | some b =>
    interactiveB v.attrs && decide (10 < b.w) && decide (10 < b.h) &&
      decide (b.w < 2000) && decide (b.h < 3000)
  | none => false

/-- The overlay built for an included node. -/
def mkFromView (v : NodeView) : Overlay :=
  { bounds := v.attrs.bounds_computed.getD ⟨0, 0, 0, 0⟩
    label := labelOf v.tag v.attrs
    color := colorOf v.attrs }

mutual
/-- `extractElementBounds`: pre-order walk; a node with `visible === 'false'`
is skipped but its children are still traversed; an included node contributes
`{bounds, label, color}` before its children's contributions. -/
def extractElementBounds : HierarchyNode → List Overlay
  | .node tag attrs cs =>
    if attrs.visible = some "false" then extractForest cs
    else
      (match attrs.bounds_computed with
       | some b =>
         if (interactiveB attrs && decide (10 < b.w) && decide (10 < b.h) &&
             decide (b.w < 2000) && decide (b.h < 3000)) = true then
           [{ bounds := b, label := labelOf tag attrs, color := colorOf attrs }]
         else []
       | none => []) ++ extractForest cs

/-- `extractElementBounds` over a forest of children. -/
def extractForest : Forest → List Overlay
  | .nil => []
  | .cons c cs => extractElementBounds c ++ extractForest cs
end

/-! ## GestureRecognizer -/

/-- `tapStartRef` content: the device point and the canvas point captured on
pointer-down. -/
structure TapStart where
  x : ℚ
  y : ℚ
  canvasX : ℚ
  canvasY : ℚ
deriving DecidableEq

/-- The transient swipe preview arrow. -/
structure SwipeArrow where
  x1 : ℚ
  y1 : ℚ
  x2 : ℚ
  y2 : ℚ
deriving DecidableEq

/-- Gesture-recognizer state: `tapStartRef` and `swipeArrow`. -/
structure GestureState where
  tapStart : Option TapStart
  swipeArrow : Option SwipeArrow
deriving DecidableEq

/-- A command dispatched to the device bridge. -/
inductive DeviceCommand where
  | tapCmd (x y : ℚ)
  | swipeCmd (x1 y1 x2 y2 : ℚ) (durationMs : ℕ)
deriving DecidableEq

/-- `SWIPE_THRESHOLD = 20` canvas pixels. -/
def SWIPE_THRESHOLD : ℚ := 20

/-- `Math.sqrt(dx*dx + dy*dy) > SWIPE_THRESHOLD`, encoded on squares (both
sides are non-negative, so the comparison is equivalent to
`dx² + dy² > SWIPE_THRESHOLD²`). -/
def distExceedsThreshold (dx dy : ℚ) : Bool :=
  decide (SWIPE_THRESHOLD * SWIPE_THRESHOLD < dx * dx + dy * dy)

/-- `handleMouseDown` (tap mode): capture the pending gesture
`{device point, canvas point}` and clear the swipe preview. -/
def handleMouseDown (tapMode : Bool) (deviceInfo : Option DeviceInfo) (scale : ℚ)
    (pos : Option (ℚ × ℚ)) (g : GestureState) : GestureState :=
  if tapMode = false then g
  else
    match pos with
    | some (px, py) =>
      let dc := canvasToDevice deviceInfo scale px py
      { tapStart := some ⟨dc.1, dc.2, px, py⟩, swipeArrow := none }
    | none => g

/-- `handleMouseLeave`: clear the live coordinate readout
(`onCoordinateUpdate(null)`, the second component) and the swipe preview;
`tapStartRef` is untouched. -/
def handleMouseLeave (g : GestureState) : GestureState × Option (ℚ × ℚ) :=
  ({ g with swipeArrow := none }, none)

/-- `handleMouseUp`: with a pending gesture in tap mode and a pointer
position, clear the pending gesture and the preview, then (when a device is
selected) dispatch a swipe when the canvas distance from the captured start
exceeds `SWIPE_THRESHOLD`, else a tap at the captured start device point. -/
def handleMouseUp (tapMode : Bool) (deviceSerial : Option String)
    (deviceInfo : Option DeviceInfo) (scale : ℚ) (pos : Option (ℚ × ℚ))
    (g : GestureState) : GestureState × Option DeviceCommand :=
  if tapMode = false then (g, none)
  else
    match g.tapStart with
    | none => (g, none)
    | some start =>
      match pos with
      | none => (g, none)
      | some (px, py) =>
        let dx := px - start.canvasX
        let dy := py - start.canvasY
        let g' : GestureState := { tapStart := none, swipeArrow := none }
        match deviceSerial with
        | none => (g', none)
        | some _ =>
          if distExceedsThreshold dx dy then
            let endDc := canvasToDevice deviceInfo scale px py
            (g', some (.swipeCmd start.x start.y endDc.1 endDc.2 300))
          else
            (g', some (.tapCmd start.x start.y))

/-! ## StreamSessionManager (WebSocket effect, device switch, stale frames)

The model covers the device-switch protocol of the ScreenCanvas WebSocket
effect together with `forceDisconnect` and the application-level
`handleDeviceChange`: socket creation (`openNewWs`), the effect body with its
wait-for-prior-close branch, the effect cleanup, frame delivery guarded by
`currentSerialRef`, and close acknowledgments.  Unclean closes and the 2 s
reconnect backoff are outside this model's event alphabet. -/

/-- WebSocket readyState. -/
inductive SockSt where
  | connecting
  | opened
  | closing
  | closed
deriving DecidableEq

/-- One WebSocket transport: the device serial it was opened for and its
state. -/
structure Sock where
  serial : String
  st : SockSt
deriving DecidableEq

/-- ScreenCanvas session state: `currentSerialRef`, the socket tracked by
`wsRef`, sockets that were `close()`d but whose close event has not fired yet
(`pending`, each with the serial of a deferred `openNewWs` registered on its
close event, if any), sockets left live but untracked after `wsRef` was
overwritten (`lost`), and the displayed frame. -/
structure CanvasState where
  current : Option String
  active : Option Sock
  pending : List (Sock × Option String)
  lost : List Sock
  imageUrl : Option Nat
deriving DecidableEq

/-- Initial state: nothing connected, nothing displayed. -/
def initCanvas : CanvasState :=
  { current := none, active := none, pending := [], lost := [], imageUrl := none }

/-- `ws.close()`: a terminal socket stays terminal, any other becomes
closing. -/
def closeSock (s : Sock) : Sock :=
  if s.st = .closed then s else { s with st := .closing }

/-- Close the tracked socket and untrack it (`ws.close(); wsRef.current =
null`), registering `deferred` to be opened on its close acknowledgment; an
already-closed socket is simply dropped. -/
def dropActive (deferred : Option String) (st : CanvasState) : CanvasState :=
  match st.active with
  | none => st
  | some a =>
    if a.st = .closed then { st with active := none }
    else { st with active := none, pending := st.pending ++ [(closeSock a, deferred)] }

/-- `openNewWs`: bail out when `currentSerialRef.current !== deviceSerial`;
otherwise create a new WebSocket and point `wsRef` at it.  A still-live socket
previously in `wsRef` is overwritten and becomes untracked (`lost`). -/
def openNewWs (serial : String) (st : CanvasState) : CanvasState :=
  if st.current = some serial then
    { st with
      active := some ⟨serial, .connecting⟩
      lost := st.lost ++ st.active.toList.filter (fun a => decide (a.st ≠ .closed)) }
  else st

/-- The WebSocket effect cleanup (runs before every re-run of the effect and
on unmount): `currentSerialRef.current = null`; close and untrack the socket
in `wsRef`; `cleanupImageUrl()`. -/
def cleanupEffect (st : CanvasState) : CanvasState :=
  let st := { st with current := none }
  let st := dropActive none st
  { st with imageUrl := none }

/-- The WebSocket effect body for a selected device: record the previous
`wsRef` socket, set `currentSerialRef` to the new serial and null `wsRef`;
when the previous socket exists and is not CLOSED, close it and defer
`openNewWs` behind its close event; otherwise call `openNewWs` at once. -/
def runEffectBody (serial : String) (st0 : CanvasState) : CanvasState :=
  let prevWs := st0.active
  let st := { st0 with current := some serial, active := none }
  match prevWs with
  | some p =>
    if p.st ≠ .closed then
      { st with pending := st.pending ++ [(closeSock p, some serial)] }
    else openNewWs serial st
  | none => openNewWs serial st

/-- Events of the session model. -/
inductive Ev where
  /-- Cleanup of the previous effect run, then the effect body for `serial`
  (React re-runs the effect this way on every device change). -/
  | switchTo (serial : String)
  /-- Cleanup, then the effect branch for no selected device. -/
  | detach
  /-- `onopen` of the tracked socket: connected, unless the serial is stale,
  in which case the socket closes itself. -/
  | sockOpened
  /-- `onmessage` carrying frame `data` on a socket opened for `serial`. -/
  | frame (serial : String) (data : Nat)
  /-- `onclose` of the tracked socket (clean). -/
  | activeClosedEv
  /-- Close acknowledgment of the `i`-th untracked closing socket; fires the
  deferred `openNewWs` registered on it, if any. -/
  | ackPending (i : Nat)
  /-- `forceDisconnect` exposed to the parent (`handleDeviceChange` calls it
  before switching). -/
  | forceDisc

/-- One step of the session model. -/
def stepEv (e : Ev) (st : CanvasState) : CanvasState :=
  match e with
  | .switchTo s => runEffectBody s (cleanupEffect st)
  | .detach =>
    let st := cleanupEffect st
    let st := dropActive none st
    { st with imageUrl := none }
  | .sockOpened =>
    match st.active with
    | some a =>
      if a.st = .connecting then
        if st.current = some a.serial then { st with active := some { a with st := .opened } }
        else { st with active := some { a with st := .closing } }
      else st
    | none => st
  | .frame s d =>
    if st.current = some s then { st with imageUrl := some d } else st
  | .activeClosedEv =>
    match st.active with
    | some _ => { st with active := none }
    | none => st
  | .ackPending i =>
    match st.pending[i]? with
    | some (_, deferredSerial) =>
      let st' := { st with pending := st.pending.eraseIdx i }
      match deferredSerial with
      | some b => openNewWs b st'
      | none => st'
    | none => st
  | .forceDisc =>
    let st := { st with current := none }
    let st := dropActive none st
    { st with imageUrl := none }

/-- Run a list of events from a state. -/
def runTrace (tr : List Ev) (st : CanvasState) : CanvasState :=
  tr.foldl (fun s e => stepEv e s) st

/-- Every transport the model knows about. -/
def transports (st : CanvasState) : List Sock :=
  st.active.toList ++ st.pending.map Prod.fst ++ st.lost

/-- A transport that is CONNECTING or OPEN. -/
def isLive (s : Sock) : Bool :=
  decide (s.st = .connecting) || decide (s.st = .opened)

/-- Number of CONNECTING-or-OPEN transports. -/
def liveTransports (st : CanvasState) : Nat :=
  (transports st).countP isLive

/-- Number of transports not yet in the CLOSED terminal state. -/
def nonClosedTransports (st : CanvasState) : Nat :=
  (transports st).countP (fun s => decide (s.st ≠ .closed))

/-! ## Spec-side formulations -/

/-- Right extent contributed by one node per the spec: `x + w` when the node
declares bounds of strictly positive width and height. -/
def contribRight (v : NodeView) : Option ℚ :=
  match v.attrs.bounds_computed with
  | some b => if 0 < b.w ∧ 0 < b.h then some (b.x + b.w) else none
  | none => none

/-- Bottom extent contributed by one node per the spec: `y + h` when the node
declares bounds of strictly positive width and height. -/
def contribBottom (v : NodeView) : Option ℚ :=
  match v.attrs.bounds_computed with
  | some b => if 0 < b.w ∧ 0 < b.h then some (b.y + b.h) else none
  | none => none

/-- Maximum of a list of rationals, floored at 0 (the walk's initial value). -/
def maxQ (l : List ℚ) : ℚ :=
  l.foldr max 0

/-- The spec's `maxRight`: the maximum of `x + w` over all nodes with strictly
positive width and height. -/
def maxRightSpec (t : HierarchyNode) : ℚ :=
  maxQ ((preorderNodes t).filterMap contribRight)

/-- The spec's `maxBottom`: the maximum of `y + h` over all nodes with strictly
positive width and height. -/
def maxBottomSpec (t : HierarchyNode) : ℚ :=
  maxQ ((preorderNodes t).filterMap contribBottom)

/-- The inclusion filter exactly as the claim words it: the node is not
explicitly marked not-visible, has computed bounds with width strictly between
10 and 2000 and height strictly between 10 and 3000, and is clickable,
scrollable, focusable or long-clickable, or has non-empty text. -/
def SpecIncl (v : NodeView) : Prop :=
  v.attrs.visible ≠ some "false" ∧
  ∃ b, v.attrs.bounds_computed = some b ∧
    10 < b.w ∧ b.w < 2000 ∧ 10 < b.h ∧ b.h < 3000 ∧
    (v.attrs.clickable = some "true" ∨ v.attrs.scrollable = some "true" ∨
     v.attrs.focusable = some "true" ∨ v.attrs.longClickable = some "true" ∨
     ∃ s, v.attrs.text = some s ∧ s ≠ "")

instance (v : NodeView) : Decidable (SpecIncl v) := by
  unfold SpecIncl
  infer_instance

/-- Truncate a label to 17 characters plus an ellipsis when longer than 20. -/
def truncateLabel (s : String) : String :=
  if s.length > 20 then jsTake s 17 ++ "..." else s

/-- The label rule exactly as the claim words it: the first non-empty
candidate among the node's text truncated, the last `/` segment of its
resource-id, its content-description, and the last `.` segment of its tag. -/
def labelClaim (tag : String) (attrs : Attrs) : String :=
  (([truncateLabel (attrs.text.getD ""),
     lastSegment slashChar (attrs.resourceId.getD ""),
     attrs.contentDesc.getD "",
     lastSegment dotChar tag].filter (fun s => decide (s ≠ ""))).headD "")

/-- The amended label rule (what the code computes): pick text if non-empty,
else — when the resource-id is non-empty — the last `/` segment of the
resource-id, else the content-description if non-empty; truncate the picked
candidate to 17 characters plus an ellipsis when longer than 20; when the
picked candidate is empty, use the last `.` segment of the tag instead. -/
def labelAmended (tag : String) (attrs : Attrs) : String :=
  if labelCandidate attrs = "" then lastSegment dotChar tag
  else truncateLabel (labelCandidate attrs)

/-- The attributes of the C8 counterexample node: clickable, valid bounds, no
text, a resource-id whose last path segment has 29 characters. -/
def c8Attrs : Attrs :=
  { clickable := some "true"
    resourceId := some "com.app:id/really_long_identifier_name_x"
    bounds_computed := some ⟨0, 0, 100, 100⟩ }

/-- Invariant of the session model: every untracked closing socket is in the
CLOSING state with no deferred open registered on it, and no live socket has
been orphaned by a `wsRef` overwrite. -/
def InvC (st : CanvasState) : Prop :=
  (∀ p ∈ st.pending, p.1.st = SockSt.closing ∧ p.2 = none) ∧ st.lost = []

/-! ## Helper lemmas -/

/-- Simultaneous structural induction over a node and a forest. -/
theorem nodeForestInd (P : HierarchyNode → Prop) (Q : Forest → Prop)
    (h1 : ∀ tag attrs cs, Q cs → P (HierarchyNode.node tag attrs cs))
    (h2 : Q Forest.nil)
    (h3 : ∀ c cs, P c → Q cs → Q (Forest.cons c cs)) :
    (∀ n, P n) ∧ (∀ cs, Q cs) :=
  ⟨fun n => @HierarchyNode.rec P Q h1 h2 h3 n, fun cs => @Forest.rec P Q h1 h2 h3 cs⟩

theorem maxQ_nil : maxQ [] = 0 := rfl

theorem maxQ_cons (x : ℚ) (l : List ℚ) : maxQ (x :: l) = max x (maxQ l) := rfl

theorem maxQ_nonneg (l : List ℚ) : 0 ≤ maxQ l := by
  induction l with
  | nil => simp [maxQ]
  | cons x xs ih => exact le_trans ih (by rw [maxQ_cons]; exact le_max_right x (maxQ xs))

theorem maxQ_append (l1 l2 : List ℚ) : maxQ (l1 ++ l2) = max (maxQ l1) (maxQ l2) := by
  induction l1 with
  | nil => simp [maxQ_nil, max_eq_right (maxQ_nonneg l2)]
  | cons x xs ih => simp only [List.cons_append, maxQ_cons, ih, max_assoc]

theorem walk_characterization :
    (∀ n, ∀ a b : ℚ, 0 ≤ a → 0 ≤ b →
      walkBounds (a, b) n =
        (max a (maxQ ((preorderNodes n).filterMap contribRight)),
         max b (maxQ ((preorderNodes n).filterMap contribBottom)))) ∧
    (∀ cs, ∀ a b : ℚ, 0 ≤ a → 0 ≤ b →
      walkForest (a, b) cs =
        (max a (maxQ ((preorderForest cs).filterMap contribRight)),
         max b (maxQ ((preorderForest cs).filterMap contribBottom)))) := by
  apply nodeForestInd
  · intro tag attrs cs ih a b ha hb
    rcases hbc : attrs.bounds_computed with _ | bd
    · simp only [walkBounds, preorderNodes, hbc, List.filterMap_cons, contribRight,
        contribBottom]
      exact ih a b ha hb
    · by_cases hpos : 0 < bd.w ∧ 0 < bd.h
      · simp only [walkBounds, preorderNodes, hbc, List.filterMap_cons, contribRight,
          contribBottom, if_pos hpos, maxQ_cons]
        rw [ih (max a (bd.x + bd.w)) (max b (bd.y + bd.h))
          (le_trans ha (le_max_left a _)) (le_trans hb (le_max_left b _))]
        simp only [max_assoc]
      · simp only [walkBounds, preorderNodes, hbc, List.filterMap_cons, contribRight,
          contribBottom, if_neg hpos]
        exact ih a b ha hb
  · intro a b ha hb
    simp only [walkForest, preorderForest, List.filterMap_nil, maxQ_nil,
      max_eq_left ha, max_eq_left hb]
  · intro c cs ihc ihcs a b ha hb
    simp only [walkForest, preorderForest, List.filterMap_append, maxQ_append]
    rw [ihc a b ha hb]
    rw [ihcs (max a (maxQ ((preorderNodes c).filterMap contribRight)))
      (max b (maxQ ((preorderNodes c).filterMap contribBottom)))
      (le_trans ha (le_max_left a _)) (le_trans hb (le_max_left b _))]
    simp only [max_assoc]

theorem estimateHierarchyBounds_eq (t : HierarchyNode) :
    estimateHierarchyBounds t = (maxRightSpec t, maxBottomSpec t) := by
  have h := walk_characterization.1 t 0 0 le_rfl le_rfl
  simpa [estimateHierarchyBounds, maxRightSpec, maxBottomSpec,
    max_eq_right (maxQ_nonneg _)] using h

theorem extract_characterization :
    (∀ n, extractElementBounds n = ((preorderNodes n).filter inclB).map mkFromView) ∧
    (∀ cs, extractForest cs = ((preorderForest cs).filter inclB).map mkFromView) := by
  apply nodeForestInd
  · intro tag attrs cs ih
    by_cases hv : attrs.visible = some "false"
    · have hb : inclB ⟨tag, attrs⟩ = false := by simp [inclB, hv]
      simp [extractElementBounds, hv, preorderNodes, List.filter_cons, hb, ih]
    · rcases hbc : attrs.bounds_computed with _ | bd
      · have hb : inclB ⟨tag, attrs⟩ = false := by simp [inclB, hv, hbc]
        simp [extractElementBounds, hv, hbc, preorderNodes, List.filter_cons, hb, ih]
      · have hb : inclB ⟨tag, attrs⟩ =
            (interactiveB attrs && decide (10 < bd.w) && decide (10 < bd.h) &&
             decide (bd.w < 2000) && decide (bd.h < 3000)) := by
          simp [inclB, hv, hbc]
        by_cases hcond : (interactiveB attrs && decide (10 < bd.w) && decide (10 < bd.h) &&
            decide (bd.w < 2000) && decide (bd.h < 3000)) = true
        · have hmk : mkFromView ⟨tag, attrs⟩ =
              { bounds := bd, label := labelOf tag attrs, color := colorOf attrs } := by
            simp [mkFromView, hbc]
          simp [extractElementBounds, hv, hbc, preorderNodes, List.filter_cons, hb, hcond,
            hmk, ih]
        · simp [extractElementBounds, hv, hbc, preorderNodes, List.filter_cons, hb, hcond, ih]
  · simp [extractForest, preorderForest]
  · intro c cs ihc ihcs
    simp [extractForest, preorderForest, List.filter_append, ihc, ihcs]

theorem strTruthy_iff (o : Option String) : strTruthy o = true ↔ ∃ s, o = some s ∧ s ≠ "" := by
  cases o <;> simp [strTruthy]

theorem inclB_iff (v : NodeView) : inclB v = true ↔ SpecIncl v := by
  unfold inclB SpecIncl
  by_cases hv : v.attrs.visible = some "false"
  · simp [hv]
  · rcases hbc : v.attrs.bounds_computed with _ | bd
    · simp [hv, hbc]
    · simp only [hv, if_false, hbc, Bool.and_eq_true, decide_eq_true_eq, interactiveB,
        Bool.or_eq_true, strTruthy_iff, ne_eq, not_false_iff, true_and, if_neg hv,
        Option.some.injEq]
      constructor
      · rintro ⟨⟨⟨⟨hint, h1⟩, h2⟩, h3⟩, h4⟩
        exact ⟨bd, rfl, h1, h3, h2, h4, by tauto⟩
      · rintro ⟨b, hbeq, h1, h3, h2, h4, hint⟩
        cases hbeq
        exact ⟨⟨⟨⟨by tauto, h1⟩, h2⟩, h3⟩, h4⟩

theorem truncate_ne_empty (s : String) : jsTake s 17 ++ "..." ≠ "" := by
  intro h
  have h2 := congrArg String.length h
  rw [String.length_append] at h2
  have h3 : ("..." : String).length = 3 := rfl
  have h4 : ("" : String).length = 0 := rfl
  omega

theorem labelOf_eq_labelAmended (tag : String) (attrs : Attrs) :
    labelOf tag attrs = labelAmended tag attrs := by
  unfold labelOf labelAmended truncateLabel
  by_cases hc : labelCandidate attrs = ""
  · simp [hc]
  · by_cases hl : (labelCandidate attrs).length > 20
    · simp [hc, hl, truncate_ne_empty]
    · simp [hc, hl]

theorem dropActive_active (d : Option String) (st : CanvasState) :
    (dropActive d st).active = none := by
  rcases h : st.active with _ | a
  · simp [dropActive, h]
  · simp only [dropActive, h]
    split_ifs <;> rfl

theorem cleanupEffect_active (st : CanvasState) : (cleanupEffect st).active = none := by
  unfold cleanupEffect
  simp [dropActive_active]

theorem invC_dropActive (st : CanvasState) (h : InvC st) : InvC (dropActive none st) := by
  obtain ⟨hp, hl⟩ := h
  rcases ha : st.active with _ | a
  · simp only [dropActive, ha]
    exact ⟨hp, hl⟩
  · simp only [dropActive, ha]
    split_ifs with hcl
    · exact ⟨hp, hl⟩
    · refine ⟨?_, hl⟩
      intro p hpmem
      rcases List.mem_append.mp hpmem with hin | hin
      · exact hp p hin
      · have hpe : p = (closeSock a, none) := by simpa using hin
        subst hpe
        simp [closeSock, hcl]

theorem invC_openNewWs (s : String) (st : CanvasState) (h : InvC st)
    (ha : st.active = none) : InvC (openNewWs s st) := by
  obtain ⟨hp, hl⟩ := h
  unfold openNewWs
  split_ifs with hc
  · exact ⟨hp, by simp [ha, hl]⟩
  · exact ⟨hp, hl⟩

theorem invC_cleanupEffect (st : CanvasState) (h : InvC st) : InvC (cleanupEffect st) := by
  unfold cleanupEffect
  have h2 := invC_dropActive { st with current := none } ⟨h.1, h.2⟩
  exact ⟨h2.1, h2.2⟩

theorem invC_stepEv (e : Ev) (st : CanvasState) (h : InvC st) : InvC (stepEv e st) := by
  obtain ⟨hp, hl⟩ := h
  cases e with
  | switchTo s =>
    have hcl := invC_cleanupEffect st ⟨hp, hl⟩
    have hac := cleanupEffect_active st
    unfold stepEv runEffectBody
    rw [hac]
    exact invC_openNewWs s _ ⟨hcl.1, hcl.2⟩ rfl
  | detach =>
    have hcl := invC_cleanupEffect st ⟨hp, hl⟩
    unfold stepEv
    have h2 := invC_dropActive (cleanupEffect st) hcl
    exact ⟨h2.1, h2.2⟩
  | sockOpened =>
    simp only [stepEv]
    split
    all_goals first
      | exact ⟨hp, hl⟩
      | (split_ifs <;> exact ⟨hp, hl⟩)
  | frame s d =>
    simp only [stepEv]
    split_ifs <;> exact ⟨hp, hl⟩
  | activeClosedEv =>
    simp only [stepEv]
    split <;> exact ⟨hp, hl⟩
  | ackPending i =>
    simp only [stepEv]
    rcases hg : st.pending[i]? with _ | pe
    · exact ⟨hp, hl⟩
    · obtain ⟨p, d⟩ := pe
      have hmem : (p, d) ∈ st.pending := by
        have h2 := List.getElem?_eq_some.mp hg
        obtain ⟨hlt, hsome⟩ := h2
        exact hsome ▸ List.getElem_mem hlt
      have hd : d = none := (hp _ hmem).2
      subst hd
      refine ⟨?_, hl⟩
      intro q hq
      exact hp q (List.eraseIdx_subset st.pending i hq)
  | forceDisc =>
    simp only [stepEv]
    have h2 := invC_dropActive { st with current := none } ⟨hp, hl⟩
    exact ⟨h2.1, h2.2⟩

theorem invC_initCanvas : InvC initCanvas := by
  exact ⟨by simp [initCanvas], rfl⟩

theorem invC_runTrace (tr : List Ev) (st : CanvasState) (h : InvC st) :
    InvC (runTrace tr st) := by
  induction tr generalizing st with
  | nil => exact h
  | cons e tr ih => exact ih (stepEv e st) (invC_stepEv e st h)

theorem live_le_of_inv (st : CanvasState) (h : InvC st) : liveTransports st ≤ 1 := by
  obtain ⟨hp, hl⟩ := h
  unfold liveTransports transports
  rw [List.countP_append, List.countP_append]
  have h2 : (st.pending.map Prod.fst).countP isLive = 0 := by
    rw [List.countP_eq_zero]
    intro s hs
    rcases List.mem_map.mp hs with ⟨p, hpm, rfl⟩
    have hc := (hp p hpm).1
    simp [isLive, hc]
  have h3 : st.lost.countP isLive = 0 := by rw [hl]; rfl
  have h4 : st.active.toList.countP isLive ≤ 1 := by
    rcases st.active with _ | a
    · simp
    · simp only [Option.toList_some, List.countP_cons, List.countP_nil]
      split_ifs <;> omega
  omega

theorem dropActive_current (d : Option String) (st : CanvasState) :
    (dropActive d st).current = st.current := by
  rcases h : st.active with _ | a
  · simp [dropActive, h]
  · simp only [dropActive, h]
    split_ifs <;> rfl

/-! ## Claim theorems -/

/-- C4: for every hierarchy snapshot, device descriptor and frame size —
including a missing tree or device, an extent of 0 and arbitrarily large
extents — both fit factors produced by `recalcHierarchyFit` lie within
`[0.1, 2.0]`. -/
theorem c4_fit_clamped (tree : Option HierarchyNode) (dInfo : Option DeviceInfo)
    (frame : FrameSize) :
    (0.1 : ℚ) ≤ (recalcHierarchyFit tree dInfo frame).1 ∧
    (recalcHierarchyFit tree dInfo frame).1 ≤ 2 ∧
    (0.1 : ℚ) ≤ (recalcHierarchyFit tree dInfo frame).2 ∧
    (recalcHierarchyFit tree dInfo frame).2 ≤ 2 := by
  have hclamp : ∀ v : ℚ, (0.1 : ℚ) ≤ clampFit v ∧ clampFit v ≤ 2 := by
    intro v
    exact ⟨le_max_left _ _, max_le (by norm_num) (min_le_left _ _)⟩
  rcases tree with _ | t
  · rcases dInfo with _ | d <;> simp only [recalcHierarchyFit] <;> norm_num
  · rcases dInfo with _ | d
    · simp only [recalcHierarchyFit]
      norm_num
    · simp only [recalcHierarchyFit]
      split_ifs with h0
      · norm_num
      · exact ⟨(hclamp _).1, (hclamp _).2, (hclamp _).1, (hclamp _).2⟩

/-- C5: for every positive device size and positive render-surface size, the
scale computed by `calculateScale` equals
`min(renderSurface.width/device.width, renderSurface.height/device.height, 1.2)`
and is strictly positive. -/
theorem c5_renderScale (deviceW deviceH availW availH : ℚ)
    (hdw : 0 < deviceW) (hdh : 0 < deviceH) (hrw : 0 < availW) (hrh : 0 < availH) :
    (calculateScale deviceW deviceH availW availH).1 =
      min (min (availW / deviceW) (availH / deviceH)) 1.2 ∧
    0 < (calculateScale deviceW deviceH availW availH).1 := by
  refine ⟨rfl, ?_⟩
  have h1 : 0 < availW / deviceW := div_pos hrw hdw
  have h2 : 0 < availH / deviceH := div_pos hrh hdh
  have h3 : (0 : ℚ) < 1.2 := by norm_num
  simp only [calculateScale]
  exact lt_min (lt_min h1 h2) h3

/-- Witness for C5 at the spec's end-to-end scenario: device 1080×2400,
render surface 360×800. -/
theorem c5_renderScale_witness :
    (0 : ℚ) < 1080 ∧ (0 : ℚ) < 2400 ∧ (0 : ℚ) < 360 ∧ (0 : ℚ) < 800 ∧
    ((calculateScale 1080 2400 360 800).1 =
       min (min ((360 : ℚ) / 1080) ((800 : ℚ) / 2400)) 1.2 ∧
     0 < (calculateScale 1080 2400 360 800).1) := by
  refine ⟨by norm_num, by norm_num, by norm_num, by norm_num, ?_⟩
  exact c5_renderScale 1080 2400 360 800 (by norm_num) (by norm_num) (by norm_num)
    (by norm_num)

/-- C9: pointer-leave clears the swipe preview and the live coordinate readout
but leaves the captured pending gesture unchanged, and a subsequent pointer-up
emits exactly the command it would have emitted without the leave (it resolves
from the originally captured start point). -/
theorem c9_mouseLeave (g : GestureState) (tapMode : Bool) (deviceSerial : Option String)
    (deviceInfo : Option DeviceInfo) (scale : ℚ) (pos : Option (ℚ × ℚ)) :
    (handleMouseLeave g).1.tapStart = g.tapStart ∧
    (handleMouseLeave g).1.swipeArrow = none ∧
    (handleMouseLeave g).2 = none ∧
    (handleMouseUp tapMode deviceSerial deviceInfo scale pos (handleMouseLeave g).1).2 =
      (handleMouseUp tapMode deviceSerial deviceInfo scale pos g).2 := by
  obtain ⟨ts, sa⟩ := g
  refine ⟨rfl, rfl, rfl, ?_⟩
  cases tapMode <;> cases ts <;> rcases pos with _ | ⟨px, py⟩ <;>
      cases deviceSerial <;> simp [handleMouseUp, handleMouseLeave]

/-- C10: the render-to-device conversion used for taps and swipe endpoints and
the render-to-frame-pixel conversion used for hit-testing both produce
integer coordinates (denominator 1) for every pointer position, scale, frame
and canvas size. -/
theorem c10_integer_coordinates (deviceInfo : Option DeviceInfo) (scale cx cy : ℚ)
    (frame : FrameSize) (canvasW canvasH px py : ℚ) :
    (canvasToDevice deviceInfo scale cx cy).1.den = 1 ∧
    (canvasToDevice deviceInfo scale cx cy).2.den = 1 ∧
    (handleClickPoint frame canvasW canvasH deviceInfo scale px py).1.den = 1 ∧
    (handleClickPoint frame canvasW canvasH deviceInfo scale px py).2.den = 1 := by
  have hjs : ∀ q : ℚ, (jsRound q).den = 1 := by
    intro q
    simp [jsRound]
  have hcd : ∀ u v : ℚ, (canvasToDevice deviceInfo scale u v).1.den = 1 ∧
      (canvasToDevice deviceInfo scale u v).2.den = 1 := by
    intro u v
    rcases deviceInfo with _ | d <;> simp [canvasToDevice, hjs]
  refine ⟨(hcd cx cy).1, (hcd cx cy).2, ?_, ?_⟩ <;>
    · unfold handleClickPoint
      split_ifs
      all_goals simp [hjs, (hcd px py).1, (hcd px py).2]

/-- C3: a frame arriving on a WebSocket whose session identity has been
invalidated (`currentSerialRef` no longer equals the serial the socket was
opened for, e.g. after `forceDisconnect`) is dropped: the state, in particular
the displayed image, is completely unchanged. -/
theorem c3_stale_frame_dropped (st : CanvasState) (sockSerial : String) (data : Nat)
    (h : st.current ≠ some sockSerial) :
    stepEv (.frame sockSerial data) st = st ∧
    stepEv (.frame sockSerial data) (stepEv .forceDisc st) = stepEv .forceDisc st := by
  constructor
  · simp [stepEv, h]
  · have hcur : (stepEv Ev.forceDisc st).current = none := by
      simp only [stepEv]
      simp [dropActive_current]
    generalize hst2 : stepEv Ev.forceDisc st = st2 at hcur ⊢
    simp [stepEv, hcur]

/-- Witness for C3: a frame for device B arriving while the current serial is
A (and after a forced disconnect) is dropped. -/
theorem c3_stale_frame_dropped_witness :
    (CanvasState.mk (some "A") none [] [] none).current ≠ some "B" ∧
    (stepEv (.frame "B" 5) (CanvasState.mk (some "A") none [] [] none) =
       CanvasState.mk (some "A") none [] [] none ∧
     stepEv (.frame "B" 5) (stepEv .forceDisc (CanvasState.mk (some "A") none [] [] none)) =
       stepEv .forceDisc (CanvasState.mk (some "A") none [] [] none)) :=
  ⟨by decide, c3_stale_frame_dropped (CanvasState.mk (some "A") none [] [] none) "B" 5
    (by decide)⟩

/-- C1: for a hierarchy snapshot with positive extent, `maxRight`/`maxBottom`
are the maxima of `x+w` and `y+h` over all nodes with strictly positive width
and height; the pre-clamp fit is `(width/frame.width, height/frame.height)`
when the extent is oversized (beyond 1.2× the device size) and a decoded frame
with positive dimensions is available, `(width/maxRight, height/maxBottom)`
when oversized without such a frame, and `(1, 1)` otherwise; and
`recalcHierarchyFit` is exactly the clamp of that pre-clamp fit. -/
theorem c1_preclamp_fit (t : HierarchyNode) (d : DeviceInfo) (frame : FrameSize)
    (hR : 0 < (estimateHierarchyBounds t).1) (hB : 0 < (estimateHierarchyBounds t).2) :
    (estimateHierarchyBounds t).1 = maxRightSpec t ∧
    (estimateHierarchyBounds t).2 = maxBottomSpec t ∧
    recalcFitPre t d frame =
      (if d.width * 1.2 < (estimateHierarchyBounds t).1 ∨
          d.height * 1.2 < (estimateHierarchyBounds t).2 then
         if 0 < frame.width ∧ 0 < frame.height then
           (d.width / frame.width, d.height / frame.height)
         else
           (d.width / (estimateHierarchyBounds t).1, d.height / (estimateHierarchyBounds t).2)
       else (1, 1)) ∧
    recalcHierarchyFit (some t) (some d) frame =
      (clampFit (recalcFitPre t d frame).1, clampFit (recalcFitPre t d frame).2) := by
  refine ⟨?_, ?_, rfl, ?_⟩
  · rw [estimateHierarchyBounds_eq]
  · rw [estimateHierarchyBounds_eq]
  · have hne : ¬((estimateHierarchyBounds t).1 ≤ 0 ∨ (estimateHierarchyBounds t).2 ≤ 0) := by
      push_neg
      exact ⟨hR, hB⟩
    simp only [recalcHierarchyFit, if_neg hne]
    rfl

/-- Witness for C1 at the spec's iOS scenario: device 375×812, no frame yet,
a single node with bounds `(0, 0, 1170, 2000)`. -/
theorem c1_preclamp_fit_witness :
    0 < (estimateHierarchyBounds
        (.node "root" { bounds_computed := some ⟨0, 0, 1170, 2000⟩ } .nil)).1 ∧
    0 < (estimateHierarchyBounds
        (.node "root" { bounds_computed := some ⟨0, 0, 1170, 2000⟩ } .nil)).2 ∧
    ((estimateHierarchyBounds
        (.node "root" { bounds_computed := some ⟨0, 0, 1170, 2000⟩ } .nil)).1 =
       maxRightSpec (.node "root" { bounds_computed := some ⟨0, 0, 1170, 2000⟩ } .nil) ∧
     (estimateHierarchyBounds
        (.node "root" { bounds_computed := some ⟨0, 0, 1170, 2000⟩ } .nil)).2 =
       maxBottomSpec (.node "root" { bounds_computed := some ⟨0, 0, 1170, 2000⟩ } .nil) ∧
     recalcFitPre (.node "root" { bounds_computed := some ⟨0, 0, 1170, 2000⟩ } .nil)
         ⟨375, 812⟩ ⟨0, 0⟩ =
       (if (375 : ℚ) * 1.2 < (estimateHierarchyBounds
             (.node "root" { bounds_computed := some ⟨0, 0, 1170, 2000⟩ } .nil)).1 ∨
           (812 : ℚ) * 1.2 < (estimateHierarchyBounds
             (.node "root" { bounds_computed := some ⟨0, 0, 1170, 2000⟩ } .nil)).2 then
          if (0 : ℚ) < 0 ∧ (0 : ℚ) < 0 then ((375 : ℚ) / 0, (812 : ℚ) / 0)
          else ((375 : ℚ) / (estimateHierarchyBounds
                  (.node "root" { bounds_computed := some ⟨0, 0, 1170, 2000⟩ } .nil)).1,
                (812 : ℚ) / (estimateHierarchyBounds
                  (.node "root" { bounds_computed := some ⟨0, 0, 1170, 2000⟩ } .nil)).2)
        else (1, 1)) ∧
     recalcHierarchyFit
         (some (.node "root" { bounds_computed := some ⟨0, 0, 1170, 2000⟩ } .nil))
         (some ⟨375, 812⟩) ⟨0, 0⟩ =
       (clampFit (recalcFitPre
           (.node "root" { bounds_computed := some ⟨0, 0, 1170, 2000⟩ } .nil)
           ⟨375, 812⟩ ⟨0, 0⟩).1,
        clampFit (recalcFitPre
           (.node "root" { bounds_computed := some ⟨0, 0, 1170, 2000⟩ } .nil)
           ⟨375, 812⟩ ⟨0, 0⟩).2)) :=
  ⟨by norm_num [estimateHierarchyBounds, walkBounds, walkForest],
   by norm_num [estimateHierarchyBounds, walkBounds, walkForest],
   c1_preclamp_fit (.node "root" { bounds_computed := some ⟨0, 0, 1170, 2000⟩ } .nil)
     ⟨375, 812⟩ ⟨0, 0⟩
     (by norm_num [estimateHierarchyBounds, walkBounds, walkForest])
     (by norm_num [estimateHierarchyBounds, walkBounds, walkForest])⟩

/-- C7: the extractor outputs, in pre-order, exactly one overlay for each node
satisfying the claim's inclusion filter: not explicitly marked not-visible,
computed bounds with width strictly between 10 and 2000 and height strictly
between 10 and 3000, and clickable, scrollable, focusable, long-clickable or
with non-empty text.  An invisible node contributes no overlay but its
children are still visited, since every node of the tree is tested. -/
theorem c7_extractor_characterization (t : HierarchyNode) :
    extractElementBounds t =
      ((preorderNodes t).filter (fun v => decide (SpecIncl v))).map mkFromView := by
  rw [extract_characterization.1 t]
  congr 1
  apply List.filter_congr
  intro v _
  cases hb : inclB v
  · have hs : ¬ SpecIncl v := by
      intro hs
      rw [(inclB_iff v).mpr hs] at hb
      simp at hb
    simp [hs]
  · have hs : SpecIncl v := (inclB_iff v).mp hb
    simp [hs]

/-- C8 counterexample: a clickable node of valid size with no text and a
resource-id whose last path segment has 29 characters.  The claim's label rule
(truncation applies to the text candidate only) yields the full 29-character
segment, but the code truncates the chosen resource-id segment to 17
characters plus an ellipsis. -/
theorem c8_label_counterexample :
    extractElementBounds (.node "android.widget.Button" c8Attrs .nil) =
      [{ bounds := ⟨0, 0, 100, 100⟩, label := "really_long_ident...",
         color := "#52c41a" }] ∧
    labelClaim "android.widget.Button" c8Attrs = "really_long_identifier_name_x" ∧
    "really_long_ident..." ≠ "really_long_identifier_name_x" := by
  exact ⟨by decide, by decide, by decide⟩

/-- C8 amended: for every node included by the extractor, the label is: the
node's text if non-empty, else — when the resource-id is non-empty — the last
path segment of the resource-id, else the content-description if non-empty;
the chosen candidate is truncated to 17 characters plus an ellipsis when
longer than 20; when the chosen candidate is empty the label is the last
dotted segment of the node's own tag (not truncated). -/
theorem c8_label_amended (t : HierarchyNode) :
    (extractElementBounds t).map Overlay.label =
      ((preorderNodes t).filter inclB).map (fun v => labelAmended v.tag v.attrs) := by
  rw [extract_characterization.1 t, List.map_map]
  apply List.map_congr_left
  intro v _
  simp [Function.comp, mkFromView, labelOf_eq_labelAmended]

/-- C2 counterexample: switch from a connected device A to device B
(`forceDisconnect` then the effect re-run, exactly the code's device-switch
path).  At the instant after the switch, B's WebSocket has already been
created (CONNECTING) while A's transport is still CLOSING — not CLOSED, its
close acknowledgment has not been delivered — so the new socket was *not*
created only after A's close acknowledgment, and two non-CLOSED transports
coexist. -/
theorem c2_switch_counterexample :
    (runTrace [Ev.switchTo "A", Ev.sockOpened, Ev.forceDisc, Ev.switchTo "B"]
        initCanvas).active = some ⟨"B", SockSt.connecting⟩ ∧
    (runTrace [Ev.switchTo "A", Ev.sockOpened, Ev.forceDisc, Ev.switchTo "B"]
        initCanvas).pending = [(⟨"A", SockSt.closing⟩, none)] ∧
    nonClosedTransports
      (runTrace [Ev.switchTo "A", Ev.sockOpened, Ev.forceDisc, Ev.switchTo "B"]
        initCanvas) = 2 := by
  exact ⟨by decide, by decide, by decide⟩

/-- C2 amended: on the device-switch path the prior transport is closed and
untracked before the effect re-runs, so the new device's WebSocket is created
immediately (the effect always leaves a fresh CONNECTING socket for the new
serial), possibly while the prior transport is still CLOSING; along every
event trace of the switch protocol at most one transport is ever CONNECTING
or OPEN, so two transports are never simultaneously open. -/
theorem c2_switch_amended :
    (∀ tr : List Ev, liveTransports (runTrace tr initCanvas) ≤ 1) ∧
    (∀ (st : CanvasState) (s : String),
       (stepEv (.switchTo s) st).active = some ⟨s, SockSt.connecting⟩) := by
  constructor
  · intro tr
    exact live_le_of_inv _ (invC_runTrace tr initCanvas invC_initCanvas)
  · intro st s
    simp only [stepEv, runEffectBody, cleanupEffect_active]
    simp [openNewWs]

/-- C6: on pointer-up with a pending gesture in tap mode (with a device
selected and device info present), the pending gesture and the preview are
cleared; a release within the 20-pixel threshold of the captured canvas start
point (squared distance at most 400) taps at the captured start device point,
and a release strictly beyond it swipes from the start device point to the
release device point with a 300 ms duration. -/
theorem c6_gesture_classification (deviceSerial : String) (di : DeviceInfo)
    (scale px py : ℚ) (g : GestureState) (start : TapStart)
    (hg : g.tapStart = some start) :
    ((handleMouseUp true (some deviceSerial) (some di) scale (some (px, py)) g).1.tapStart =
       none ∧
     (handleMouseUp true (some deviceSerial) (some di) scale (some (px, py)) g).1.swipeArrow =
       none) ∧
    ((px - start.canvasX) * (px - start.canvasX) +
        (py - start.canvasY) * (py - start.canvasY) ≤ 20 * 20 →
      (handleMouseUp true (some deviceSerial) (some di) scale (some (px, py)) g).2 =
        some (.tapCmd start.x start.y)) ∧
    (20 * 20 < (px - start.canvasX) * (px - start.canvasX) +
        (py - start.canvasY) * (py - start.canvasY) →
      (handleMouseUp true (some deviceSerial) (some di) scale (some (px, py)) g).2 =
        some (.swipeCmd start.x start.y (jsRound (px / scale)) (jsRound (py / scale)) 300)) := by
  have hr : handleMouseUp true (some deviceSerial) (some di) scale (some (px, py)) g =
      (⟨none, none⟩,
       if distExceedsThreshold (px - start.canvasX) (py - start.canvasY) then
         some (.swipeCmd start.x start.y (jsRound (px / scale)) (jsRound (py / scale)) 300)
       else some (.tapCmd start.x start.y)) := by
    simp only [handleMouseUp, hg, canvasToDevice]
    split_ifs <;> simp_all
  refine ⟨?_, ?_, ?_⟩
  · rw [hr]
    exact ⟨rfl, rfl⟩
  · intro hle
    rw [hr]
    have hfalse : distExceedsThreshold (px - start.canvasX) (py - start.canvasY) = false := by
      simp only [distExceedsThreshold, SWIPE_THRESHOLD, decide_eq_false_iff_not, not_lt]
      exact hle
    rw [hfalse]
    rfl
  · intro hlt
    rw [hr]
    have htrue : distExceedsThreshold (px - start.canvasX) (py - start.canvasY) = true := by
      simp only [distExceedsThreshold, SWIPE_THRESHOLD, decide_eq_true_eq]
      exact hlt
    rw [htrue]
    rfl

/-- Witness for C6: release at squared distance exactly 400 (the threshold)
from the captured canvas point taps at the captured device point. -/
theorem c6_gesture_classification_witness :
    (GestureState.mk (some ⟨5, 7, 100, 100⟩) none).tapStart = some ⟨5, 7, 100, 100⟩ ∧
    (((handleMouseUp true (some "dev") (some ⟨390, 844⟩) 1 (some (112, 116))
         (GestureState.mk (some ⟨5, 7, 100, 100⟩) none)).1.tapStart = none ∧
      (handleMouseUp true (some "dev") (some ⟨390, 844⟩) 1 (some (112, 116))
         (GestureState.mk (some ⟨5, 7, 100, 100⟩) none)).1.swipeArrow = none) ∧
     (((112 : ℚ) - 100) * ((112 : ℚ) - 100) + ((116 : ℚ) - 100) * ((116 : ℚ) - 100) ≤
         20 * 20 →
       (handleMouseUp true (some "dev") (some ⟨390, 844⟩) 1 (some (112, 116))
          (GestureState.mk (some ⟨5, 7, 100, 100⟩) none)).2 =
         some (.tapCmd 5 7)) ∧
     (20 * 20 < ((112 : ℚ) - 100) * ((112 : ℚ) - 100) +
         ((116 : ℚ) - 100) * ((116 : ℚ) - 100) →
       (handleMouseUp true (some "dev") (some ⟨390, 844⟩) 1 (some (112, 116))
          (GestureState.mk (some ⟨5, 7, 100, 100⟩) none)).2 =
         some (.swipeCmd 5 7 (jsRound ((112 : ℚ) / 1)) (jsRound ((116 : ℚ) / 1)) 300))) :=
  ⟨rfl, c6_gesture_classification "dev" ⟨390, 844⟩ 1 112 116
    (GestureState.mk (some ⟨5, 7, 100, 100⟩) none) ⟨5, 7, 100, 100⟩ rfl⟩

end Inspector
